import Mathlib

/-!
Verification of `update-dbaccess-tables-from-condition` (src/processtable.py).

Identifiers (client codes, cell values) are modelled as lists of characters
(`Code`), the character-list view of Python strings; table and column names
stay as `String`.  Database reads that may raise are modelled with
`Except String`, the error holding the exception message; the fallibility of
individual SQL statements executed inside a transaction is modelled with an
injected oracle `fails : Nat → Bool` over the execution index of the
statement, standing for the storage engine's possible failures.
-/

set_option autoImplicit false

namespace DBAccess

/-- A Python string value, viewed as its list of characters. -/
abbrev Code := List Char

/-- Embedding of `has_trailing_letter` (processtable.py:120): `re.match(r'.*[A-Za-z]$', code)`,
i.e. the last character is an ASCII letter.  (The regex `$` also accepts one
trailing newline; identifiers never carry newlines, so that corner is not
modelled.) -/
def has_trailing_letter (code : Code) : Bool :=
  match code.getLast? with
  | some c => c.isAlpha
  | none => false

/-- The ten candidate digits tried in order by `generate_unique_code`
(processtable.py:158). -/
def prefixes : List Char := ['9', '8', '7', '6', '5', '4', '3', '2', '1', '0']

/-- Embedding of `generate_unique_code` (processtable.py:137-162): strip the trailing
character, then return `p ++ base` for the first digit `p` of `prefixes`
whose candidate is not in `existing_codes`; `none` models the `ValueError`
raised when all ten candidates are taken. -/
def generate_unique_code (old_code : Code) (existing_codes : List Code) : Option Code :=
  let base_code := old_code.dropLast
  (prefixes.find? (fun p => !(existing_codes.contains (p :: base_code)))).map
    (fun p => p :: base_code)

/-- Splitting view of a successful `List.find?`: the found element is the
first one satisfying the predicate. -/
theorem find?_eq_some_split {α : Type} (p : α → Bool) :
    ∀ (l : List α) (a : α), l.find? p = some a →
      ∃ l1 l2, l = l1 ++ a :: l2 ∧ p a = true ∧ ∀ x ∈ l1, p x = false := by
  intro l
  induction l with
  | nil => intro a h; simp [List.find?] at h
  | cons b t ih =>
    intro a h
    by_cases hb : p b
    · rw [List.find?_cons_of_pos _ hb] at h
      cases h
      exact ⟨[], t, rfl, hb, by simp⟩
    · rw [List.find?_cons_of_neg _ hb] at h
      obtain ⟨l1, l2, hsplit, hpa, hl1⟩ := ih a h
      refine ⟨b :: l1, l2, by simp [hsplit], hpa, ?_⟩
      intro x hx
      rcases List.mem_cons.mp hx with rfl | hx
      · exact Bool.eq_false_iff.mpr hb
      · exact hl1 x hx

/-- The freshness test used inside `generate_unique_code`, as a proposition. -/
theorem gen_pred_true_iff (used : List Code) (c : Code) :
    (!(List.contains used c)) = true ↔ c ∉ used := by simp

/-- None of the ten candidate digits is an alphabetic character. -/
theorem prefixes_not_alpha : ∀ p ∈ prefixes, p.isAlpha = false := by decide

/-- Prepending a non-alphabetic character does not change the trailing-letter
status of a code. -/
theorem has_trailing_letter_cons (p : Char) (l : Code) (hp : p.isAlpha = false) :
    has_trailing_letter (p :: l) = has_trailing_letter l := by
  cases l with
  | nil => simp [has_trailing_letter, hp]
  | cons a t => simp [has_trailing_letter, List.getLast?_cons_cons]

/-- A successful `generate_unique_code` returns the first free candidate,
so in particular a code absent from `existing_codes`. -/
theorem generate_unique_code_some {old_code : Code} {existing_codes : List Code} {c : Code}
    (h : generate_unique_code old_code existing_codes = some c) :
    c ∉ existing_codes ∧ ∃ p ∈ prefixes, c = p :: old_code.dropLast := by
  unfold generate_unique_code at h
  rcases Option.map_eq_some'.mp h with ⟨p, hfind, rfl⟩
  have hp0 := List.find?_some hfind
  simp only [gen_pred_true_iff] at hp0
  have hmem := List.mem_of_find?_eq_some hfind
  exact ⟨hp0, p, hmem, rfl⟩

/-- C3 (counterexample): the claim promises the generated code never ends in
an alphabetic letter, but when the penultimate character of `old_code` is
itself a letter the generated code keeps it as its last character: for
`old_code = "12AB"` and empty `used_codes`, at least one candidate is free,
yet the result `"912A"` ends in the letter `A`. -/
theorem C3_counterexample :
    has_trailing_letter ['1', '2', 'A', 'B'] = true ∧
    (∃ p ∈ prefixes, (p :: List.dropLast ['1', '2', 'A', 'B']) ∉ ([] : List Code)) ∧
    generate_unique_code ['1', '2', 'A', 'B'] [] = some ['9', '1', '2', 'A'] ∧
    has_trailing_letter ['9', '1', '2', 'A'] = true := by decide

/-- C3 (amended): for every `old_code` ending in an alphabetic letter and
every `used_codes` set in which at least one of the ten prefixed variants of
the base is free, `generate_unique_code` returns a code with the same length
as `old_code` that is not in `used_codes`; the returned code ends in an
alphabetic letter exactly when `old_code` with its final character removed
does (so it is conforming whenever the penultimate character of `old_code`
is not a letter). -/
theorem C3_generate_fresh_same_length (old_code : Code) (used_codes : List Code)
    (h1 : has_trailing_letter old_code = true)
    (h2 : ∃ p ∈ prefixes, (p :: old_code.dropLast) ∉ used_codes) :
    ∃ c, generate_unique_code old_code used_codes = some c ∧
      c.length = old_code.length ∧ c ∉ used_codes ∧
      has_trailing_letter c = has_trailing_letter old_code.dropLast := by
  obtain ⟨p, hpmem, hpfree⟩ := h2
  have hne : generate_unique_code old_code used_codes ≠ none := by
    intro hnone
    unfold generate_unique_code at hnone
    rw [Option.map_eq_none', List.find?_eq_none] at hnone
    exact (hnone p hpmem) ((gen_pred_true_iff used_codes _).mpr hpfree)
  obtain ⟨c, hc⟩ := Option.ne_none_iff_exists'.mp hne
  obtain ⟨hfresh, q, hqmem, rfl⟩ := generate_unique_code_some hc
  have hnonempty : old_code ≠ [] := by
    intro h; rw [h] at h1; simp [has_trailing_letter] at h1
  refine ⟨q :: old_code.dropLast, hc, ?_, hfresh, ?_⟩
  · have := List.length_dropLast old_code
    have hpos : 0 < old_code.length := List.length_pos.mpr hnonempty
    simp only [List.length_cons, this]
    omega
  · exact has_trailing_letter_cons q _ (prefixes_not_alpha q hqmem)

/-- C3 witness: the amended theorem applied at `old_code = "123A"` with
`"9123"` already taken, producing the fresh conforming code `"8123"`. -/
theorem C3_generate_fresh_same_length_witness :
    ∃ c, generate_unique_code ['1', '2', '3', 'A'] [['9', '1', '2', '3']] = some c ∧
      c.length = (['1', '2', '3', 'A'] : Code).length ∧
      c ∉ [['9', '1', '2', '3']] ∧
      has_trailing_letter c = has_trailing_letter (List.dropLast ['1', '2', '3', 'A']) :=
  C3_generate_fresh_same_length ['1', '2', '3', 'A'] [['9', '1', '2', '3']]
    (by decide) (by decide)

/-- C4: `generate_unique_code` fails (returns `none`, i.e. raises
`ValueError`) exactly when all ten candidates `p ++ old_code[:-1]` for `p`
in `'9',...,'0'` are already in `used_codes`; otherwise it returns the
candidate for the first free digit in that descending order, which in
particular is never a member of `used_codes`. -/
theorem C4_exhaustion_first_free (old_code : Code) (used_codes : List Code) :
    (generate_unique_code old_code used_codes = none ↔
      ∀ p ∈ prefixes, (p :: old_code.dropLast) ∈ used_codes) ∧
    (∀ c, generate_unique_code old_code used_codes = some c →
      c ∉ used_codes ∧ ∃ p l1 l2, prefixes = l1 ++ p :: l2 ∧ c = p :: old_code.dropLast ∧
        ∀ q ∈ l1, (q :: old_code.dropLast) ∈ used_codes) := by
  constructor
  · unfold generate_unique_code
    rw [Option.map_eq_none', List.find?_eq_none]
    constructor
    · intro h p hp
      by_contra hmem
      exact (h p hp) ((gen_pred_true_iff used_codes _).mpr hmem)
    · intro h p hp hpred
      exact ((gen_pred_true_iff used_codes _).mp hpred) (h p hp)
  · intro c hc
    refine ⟨(generate_unique_code_some hc).1, ?_⟩
    unfold generate_unique_code at hc
    rcases Option.map_eq_some'.mp hc with ⟨p, hfind, rfl⟩
    obtain ⟨l1, l2, hsplit, _, hl1⟩ := find?_eq_some_split _ _ _ hfind
    refine ⟨p, l1, l2, hsplit, rfl, ?_⟩
    intro q hq
    have hfalse := hl1 q hq
    by_contra hnot
    rw [(gen_pred_true_iff used_codes _).mpr hnot] at hfalse
    exact Bool.true_eq_false.mp hfalse

/-- C4 witness: with all ten candidates for base `"1"` occupied the
generator returns `none` (the `ValueError` path), by the exhaustion theorem
applied at a concrete input. -/
theorem C4_exhaustion_first_free_witness :
    generate_unique_code ['1', 'A']
      [['9', '1'], ['8', '1'], ['7', '1'], ['6', '1'], ['5', '1'],
       ['4', '1'], ['3', '1'], ['2', '1'], ['1', '1'], ['0', '1']] = none :=
  (C4_exhaustion_first_free ['1', 'A'] _).1.mpr (by decide)

/-! ## Mapping Builder: `process_client_table` (processtable.py:405-466)

The function reads the client table, keeps only the values of the key field
(the only column the mapping pass uses), flags the values with a trailing
letter, and generates a replacement for each flagged value while growing the
`existing_codes` set.  The rows of the client table are modelled by the list
of their key-field values in query order.  The result carries the mapping
list, the final rows of the client table, and the list of
`(old_code, new_code)` parameter pairs of the `UPDATE` statements that were
executed (empty when `update_clients` is false). -/

/-- The generation loop of `process_client_table` (processtable.py:442-449):
walk the flagged values in order, generate a fresh code for each, and add it
to `existing_codes` immediately; `none` models the `ValueError` escaping from
`generate_unique_code`. -/
def gen_mappings : List Code → List Code → Option (List (Code × Code))
  | [], _ => some []
  | old :: rest, existing =>
    match generate_unique_code old existing with
    | none => none
    | some c => (gen_mappings rest (c :: existing)).map (fun ms => (old, c) :: ms)

/-- One `UPDATE client_table SET key = :new WHERE key = :old` statement
(processtable.py:459-464) applied to the key-field values of the table. -/
def applyClientUpdate (rows : List Code) (old_code new_code : Code) : List Code :=
  rows.map (fun v => if v == old_code then new_code else v)

/-- The update loop of `process_client_table` (processtable.py:453-464):
one statement per mapping row, in order, on one connection. -/
def runClientUpdates : List Code → List (Code × Code) → List Code
  | rows, [] => rows
  | rows, (o, n) :: rest => runClientUpdates (applyClientUpdate rows o n) rest

/-- Embedding of `process_client_table` (processtable.py:405-466) restricted to the key
field: returns `(df_mappings, final table rows, executed update statements)`,
or `none` when code generation is exhausted. -/
def process_client_table (rows : List Code) (update_clients : Bool) :
    Option (List (Code × Code) × List Code × List (Code × Code)) :=
  match gen_mappings (rows.filter has_trailing_letter) rows with
  | none => none
  | some df_mappings =>
    if update_clients then
      some (df_mappings, runClientUpdates rows df_mappings, df_mappings)
    else
      some (df_mappings, rows, [])

/-- Invariant of the generation loop: every generated code is fresh against
the `existing` set at its generation time, so the generated codes are
pairwise distinct and disjoint from the initial `existing` set. -/
theorem gen_mappings_fresh :
    ∀ (olds : List Code) (existing : List Code) (ms : List (Code × Code)),
      gen_mappings olds existing = some ms →
      (ms.map Prod.snd).Nodup ∧ ∀ c ∈ ms.map Prod.snd, c ∉ existing := by
  intro olds
  induction olds with
  | nil =>
    intro existing ms h
    simp only [gen_mappings, Option.some_inj] at h
    simp [← h]
  | cons old rest ih =>
    intro existing ms h
    simp only [gen_mappings] at h
    cases hgen : generate_unique_code old existing with
    | none => rw [hgen] at h; simp at h
    | some c =>
      rw [hgen] at h
      rcases Option.map_eq_some'.mp h with ⟨ms', hrec, rfl⟩
      obtain ⟨hnodup, hfresh⟩ := ih (c :: existing) ms' hrec
      have hcfresh := (generate_unique_code_some hgen).1
      constructor
      · refine List.nodup_cons.mpr ⟨?_, hnodup⟩
        intro hmem
        exact (hfresh c hmem) (List.mem_cons_self c existing)
      · intro x hx
        rcases List.mem_cons.mp hx with rfl | hx
        · exact hcfresh
        · intro hmem
          exact (hfresh x hx) (List.mem_cons_of_mem c hmem)

/-- C9: in a successful mapping pass of `process_client_table`, every
generated `NEW_CODE` is absent from the initial key-field values of the
client table and from every `NEW_CODE` generated earlier in the pass:
the `NEW_CODE`s of the returned mapping are pairwise distinct and disjoint
from the original key-field values. -/
theorem C9_new_codes_fresh (rows : List Code) (update_clients : Bool)
    (ms : List (Code × Code)) (final : List Code) (stmts : List (Code × Code))
    (h : process_client_table rows update_clients = some (ms, final, stmts)) :
    (ms.map Prod.snd).Nodup ∧ ∀ c ∈ ms.map Prod.snd, c ∉ rows := by
  unfold process_client_table at h
  cases hgen : gen_mappings (rows.filter has_trailing_letter) rows with
  | none => simp [hgen] at h
  | some ms' =>
    simp only [hgen] at h
    have hms : ms' = ms := by
      cases update_clients <;> simp_all
    exact hms ▸ gen_mappings_fresh _ rows ms' hgen

/-- C9 witness: a concrete pass over rows `["10001A", "10002"]` produces the
mapping `[("10001A", "910001")]` whose new code is fresh. -/
theorem C9_new_codes_fresh_witness :
    (([(['1', '0', '0', '0', '1', 'A'], ['9', '1', '0', '0', '0', '1'])].map
        Prod.snd).Nodup ∧
      ∀ c ∈ [(['1', '0', '0', '0', '1', 'A'], ['9', '1', '0', '0', '0', '1'])].map
        Prod.snd, c ∉ [['1', '0', '0', '0', '1', 'A'], ['1', '0', '0', '0', '2']]) :=
  C9_new_codes_fresh [['1', '0', '0', '0', '1', 'A'], ['1', '0', '0', '0', '2']] true
    [(['1', '0', '0', '0', '1', 'A'], ['9', '1', '0', '0', '0', '1'])]
    [['9', '1', '0', '0', '0', '1'], ['1', '0', '0', '0', '2']]
    [(['1', '0', '0', '0', '1', 'A'], ['9', '1', '0', '0', '0', '1'])]
    (by decide)

/-- C10: with `update_clients = False`, `process_client_table` executes no
`UPDATE` statement and leaves the client table unchanged, while returning
the same old-to-new mapping as the `update_clients = True` run. -/
theorem C10_no_update_same_mapping (rows : List Code) :
    (∀ ms final stmts, process_client_table rows false = some (ms, final, stmts) →
      final = rows ∧ stmts = []) ∧
    (process_client_table rows false).map (fun r => r.1) =
      (process_client_table rows true).map (fun r => r.1) := by
  unfold process_client_table
  cases hgen : gen_mappings (rows.filter has_trailing_letter) rows with
  | none => simp [hgen]
  | some ms =>
    simp [hgen]
    intro ms1 final stmts h1 h2 h3
    exact ⟨h2.symm, h3⟩

/-- C10 witness: the theorem applied at the concrete table
`["10001A", "10002"]`, with the hypothesis of its first conjunct discharged
on the computed result. -/
theorem C10_no_update_same_mapping_witness :
    ([(['1', '0', '0', '0', '1', 'A'], ['9', '1', '0', '0', '0', '1'])],
        ([['1', '0', '0', '0', '1', 'A'], ['1', '0', '0', '0', '2']] : List Code),
        ([] : List (Code × Code))).2.1 =
        [['1', '0', '0', '0', '1', 'A'], ['1', '0', '0', '0', '2']] ∧
      ([(['1', '0', '0', '0', '1', 'A'], ['9', '1', '0', '0', '0', '1'])],
        ([['1', '0', '0', '0', '1', 'A'], ['1', '0', '0', '0', '2']] : List Code),
        ([] : List (Code × Code))).2.2 = [] :=
  (C10_no_update_same_mapping
    [['1', '0', '0', '0', '1', 'A'], ['1', '0', '0', '0', '2']]).1
    [(['1', '0', '0', '0', '1', 'A'], ['9', '1', '0', '0', '0', '1'])]
    [['1', '0', '0', '0', '1', 'A'], ['1', '0', '0', '0', '2']] []
    (by decide)

/-! ## Schema Scanner and Cross-Table Matcher: `find_code_matches_in_db`
(processtable.py:296-401)

A database row is an association list from column name to cell value.  A
catalog table carries the outcomes of the three reads the function performs
on it: the row count (processtable.py:326-334, exceptions caught per table),
the column metadata (processtable.py:337, `inspector.get_columns`, *no*
exception handler), and the row fetch (processtable.py:371-375, exceptions
caught per table).  `Except.error` holds the exception message. -/

/-- A fetched database row: column name to cell value. -/
abbrev Row := List (String × Code)

/-- Cell lookup in a row by column name. -/
def rowGet (r : Row) (c : String) : Option Code :=
  (r.find? (fun p => p.1 == c)).map Prod.snd

/-- Column metadata as used by the scanner: `column['name']`,
`str(column['type'])`, and `column['type'].length`. -/
structure ColumnInfo where
  name : String
  ctype : String
  clength : Option Nat
deriving DecidableEq, Repr

/-- One catalog table together with the outcomes of the reads performed on
it by `find_code_matches_in_db`. -/
structure DBTable where
  name : String
  countResult : Except String Nat
  columnsResult : Except String (List ColumnInfo)
  rowsResult : Except String (List Row)

/-- Test that `needle` occurs as a contiguous subsequence of `hay` (Python `in` on
strings). -/
def containsSeq (needle : List Char) : List Char → Bool
  | [] => needle.isEmpty
  | c :: rest => needle.isPrefixOf (c :: rest) || containsSeq needle rest

/-- The type test of processtable.py:345-348: `'CHAR' in col_type or 'TEXT'
in col_type or 'VARCHAR' in col_type` where `col_type =
str(column['type']).upper()` (uppercasing applied per character). -/
def isTextualType (t : String) : Bool :=
  containsSeq "CHAR".toList (t.toList.map Char.toUpper) ||
    containsSeq "TEXT".toList (t.toList.map Char.toUpper) ||
    containsSeq "VARCHAR".toList (t.toList.map Char.toUpper)

/-- The length test of processtable.py:351: `col_length and
6 <= col_length <= 20` (a `None` or zero length is falsy). -/
def lengthOk : Option Nat → Bool
  | none => false
  | some n => (n != 0) && (decide (6 ≤ n)) && (decide (n ≤ 20))

/-- The candidate columns of a table (processtable.py:343-352): textual
declared type with declared length between 6 and 20. -/
def candidateColumns (cols : List ColumnInfo) : List String :=
  (cols.filter (fun c => isTextualType c.ctype && lengthOk c.clength)).map ColumnInfo.name

/-- Embedding of `db_keys.get(table_name, [])` (processtable.py:359). -/
def keysFor (db_keys : List (String × List String)) (name : String) : List String :=
  (List.lookup name db_keys).getD []

/-- The candidate columns with the table's key columns removed
(processtable.py:362). -/
def candidatesAfterKeys (cols : List ColumnInfo) (keys : List String) : List String :=
  (candidateColumns cols).filter (fun c => !(keys.contains c))

/-- One match found by the scan: the fetched row, plus the `FOUND_VALUE`,
`FOUND_FIELD` and `NEW_VALUE` columns added at processtable.py:392-394. -/
structure MatchRec where
  row : Row
  found_value : Code
  found_field : String
  new_value : Code
deriving DecidableEq, Repr

/-- Embedding of `df_mappings.loc[df_mappings['OLD_CODE'] == old_code, 'NEW_CODE'].values[0]`
(processtable.py:383): the `NEW_CODE` of the first mapping row carrying this
`OLD_CODE` (the dummy `[]` branch is unreachable, the old code being drawn
from the same frame). -/
def lookupNew (mappings : List (Code × Code)) (old : Code) : Code :=
  match mappings.find? (fun m => m.1 == old) with
  | some m => m.2
  | none => []

/-- The match loop of processtable.py:381-395: for each mapping old code in
order and each candidate column in order, keep the rows whose cell in that
column equals the old code exactly, tagging each with `FOUND_VALUE`,
`FOUND_FIELD` and `NEW_VALUE`. -/
def tableMatches (mappings : List (Code × Code)) (cols : List String) (rows : List Row) :
    List MatchRec :=
  mappings.flatMap (fun m =>
    cols.flatMap (fun c =>
      (rows.filter (fun r => rowGet r c == some m.1)).map
        (fun r => { row := r, found_value := m.1, found_field := c,
                    new_value := lookupNew mappings m.1 })))

/-- The per-table body of the scan loop (processtable.py:324-399).  The
entries this table adds to `matches_dict` (one at most), or the propagated
exception.  An exception from the row count is caught and the table skipped;
an exception from `inspector.get_columns` has no handler and propagates; a
table whose candidate list is empty, or with no configured key columns, is
skipped; an exception from the row fetch is caught and the table skipped
(when every candidate column is also a key column the built `SELECT` is
malformed and this same caught path is taken); a table with no matches adds
no entry. -/
def processTable (mappings : List (Code × Code)) (db_keys : List (String × List String))
    (t : DBTable) : Except String (List (String × List MatchRec)) :=
  match t.countResult with
  | .error _ => .ok []
  | .ok cnt =>
    if cnt == 0 then .ok []
    else
      match t.columnsResult with
      | .error e => .error e
      | .ok cols =>
        if (candidateColumns cols).isEmpty then .ok []
        else if (keysFor db_keys t.name).isEmpty then .ok []
        else if (candidatesAfterKeys cols (keysFor db_keys t.name)).isEmpty then .ok []
        else
          match t.rowsResult with
          | .error _ => .ok []
          | .ok rows =>
            if (tableMatches mappings (candidatesAfterKeys cols (keysFor db_keys t.name))
                rows).isEmpty then .ok []
            else
              .ok [(t.name,
                tableMatches mappings (candidatesAfterKeys cols (keysFor db_keys t.name)) rows)]

/-- Embedding of `find_code_matches_in_db` (processtable.py:296-401): fold the per-table
body over the catalog's tables in order, accumulating `matches_dict` in
insertion order; an uncaught per-table exception aborts the whole scan. -/
def find_code_matches_in_db (mappings : List (Code × Code)) (tables : List DBTable)
    (db_keys : List (String × List String)) : Except String (List (String × List MatchRec)) :=
  match tables with
  | [] => .ok []
  | t :: rest =>
    match processTable mappings db_keys t with
    | .error e => .error e
    | .ok entries =>
      match find_code_matches_in_db mappings rest db_keys with
      | .error e => .error e
      | .ok more => .ok (entries ++ more)

/-- A table whose per-table body adds nothing and raises nothing is skipped:
the scan of a catalog containing it equals the scan of the catalog without
it. -/
theorem find_skip (mappings : List (Code × Code)) (db_keys : List (String × List String))
    (t : DBTable) (h : processTable mappings db_keys t = .ok [])
    (db1 db2 : List DBTable) :
    find_code_matches_in_db mappings (db1 ++ t :: db2) db_keys =
      find_code_matches_in_db mappings (db1 ++ db2) db_keys := by
  induction db1 with
  | nil =>
    simp only [List.nil_append, find_code_matches_in_db, h]
    cases find_code_matches_in_db mappings db2 db_keys <;> simp
  | cons s rest ih =>
    simp only [List.cons_append, find_code_matches_in_db, List.append_eq]
    rw [ih]

/-- Every record produced by the match loop records a cell that equals its
`found_value` exactly, and its `found_value` is one of the mapping old
codes. -/
theorem tableMatches_exact (mappings : List (Code × Code)) (cols : List String)
    (rows : List Row) (r : MatchRec) (h : r ∈ tableMatches mappings cols rows) :
    rowGet r.row r.found_field = some r.found_value ∧
      r.found_value ∈ mappings.map Prod.fst := by
  simp only [tableMatches, List.mem_flatMap] at h
  obtain ⟨m, hm, h⟩ := h
  obtain ⟨c, _, h⟩ := h
  obtain ⟨row, hrow, rfl⟩ := List.mem_map.mp h
  have hcell := (List.mem_filter.mp hrow).2
  constructor
  · simpa using hcell
  · exact List.mem_map.mpr ⟨m, hm, rfl⟩

/-- Every entry of the per-table body's output consists of exact-match
records. -/
theorem processTable_exact (mappings : List (Code × Code))
    (db_keys : List (String × List String)) (t : DBTable)
    (entries : List (String × List MatchRec))
    (h : processTable mappings db_keys t = .ok entries) :
    ∀ tn recs, (tn, recs) ∈ entries → ∀ r ∈ recs,
      rowGet r.row r.found_field = some r.found_value ∧
        r.found_value ∈ mappings.map Prod.fst := by
  unfold processTable at h
  repeat' split at h
  all_goals try exact Except.noConfusion h
  all_goals injection h with h
  all_goals subst h
  all_goals intro tn recs hmem r hr
  all_goals try simp at hmem
  exact tableMatches_exact _ _ _ r (hmem.2 ▸ hr)

/-- C5: in the dictionary returned by `find_code_matches_in_db`, every match
record was produced by a cell whose value equals the mapping's `old_code`
exactly; a cell whose value contains the old code as a proper substring (a
strict superstring such as `"ABC12345A-X"` for old code `"12345A"`) never
produces a match. -/
theorem C5_exact_match_only (mappings : List (Code × Code)) (tables : List DBTable)
    (db_keys : List (String × List String)) (out : List (String × List MatchRec))
    (h : find_code_matches_in_db mappings tables db_keys = .ok out)
    (tn : String) (recs : List MatchRec) (hmem : (tn, recs) ∈ out)
    (r : MatchRec) (hr : r ∈ recs) :
    rowGet r.row r.found_field = some r.found_value ∧
    r.found_value ∈ mappings.map Prod.fst ∧
    ∀ v pre post : Code, v = pre ++ r.found_value ++ post → (pre ≠ [] ∨ post ≠ []) →
      rowGet r.row r.found_field ≠ some v := by
  induction tables generalizing out with
  | nil =>
    simp only [find_code_matches_in_db] at h
    injection h with h
    subst h
    exact absurd hmem (List.not_mem_nil _)
  | cons t rest ih =>
    simp only [find_code_matches_in_db] at h
    cases hp : processTable mappings db_keys t with
    | error e => rw [hp] at h; exact Except.noConfusion h
    | ok entries =>
      rw [hp] at h
      cases hrest : find_code_matches_in_db mappings rest db_keys with
      | error e => rw [hrest] at h; exact Except.noConfusion h
      | ok more =>
        rw [hrest] at h
        injection h with h
        subst h
        have key : rowGet r.row r.found_field = some r.found_value ∧
            r.found_value ∈ mappings.map Prod.fst := by
          rcases List.mem_append.mp hmem with hmem1 | hmem2
          · exact processTable_exact mappings db_keys t entries hp tn recs hmem1 r hr
          · have := ih more hrest hmem2
            exact ⟨this.1, this.2.1⟩
        refine ⟨key.1, key.2, ?_⟩
        intro v pre post hv hne hcell
        rw [key.1] at hcell
        have hveq : v = r.found_value := (Option.some_inj.mp hcell).symm
        have heq : r.found_value = pre ++ r.found_value ++ post := by
          conv_lhs => rw [← hveq]
          exact hv
        have hlen := congrArg List.length heq
        simp only [List.length_append] at hlen
        rcases hne with hpre | hpost
        · have hp1 : 0 < pre.length := List.length_pos.mpr hpre
          omega
        · have hp1 : 0 < post.length := List.length_pos.mpr hpost
          omega

/-- A table whose row-count query reports zero rows is skipped by the
per-table body before anything else is read. -/
theorem processTable_count_zero (mappings : List (Code × Code))
    (db_keys : List (String × List String)) (t : DBTable)
    (h : t.countResult = .ok 0) :
    processTable mappings db_keys t = .ok [] := by
  unfold processTable
  rw [h]
  simp

/-- A table whose row-count query raises is skipped by the per-table body
(the exception is caught at processtable.py:332-334). -/
theorem processTable_count_error (mappings : List (Code × Code))
    (db_keys : List (String × List String)) (t : DBTable) (e : String)
    (h : t.countResult = .error e) :
    processTable mappings db_keys t = .ok [] := by
  unfold processTable
  rw [h]

/-- A table with no configured key columns is skipped by the per-table body
(the `else: continue` at processtable.py:368-369), provided its column
metadata is readable. -/
theorem processTable_no_keys (mappings : List (Code × Code))
    (db_keys : List (String × List String)) (t : DBTable) (cols : List ColumnInfo)
    (hcols : t.columnsResult = .ok cols) (hkeys : keysFor db_keys t.name = []) :
    processTable mappings db_keys t = .ok [] := by
  unfold processTable
  rw [hcols, hkeys]
  cases hcnt : t.countResult with
  | error e => rfl
  | ok n =>
    by_cases hn : (n == 0) = true
    · simp [hn]
    · simp [hn]

/-- C6: a table whose row count is zero is skipped entirely by
`find_code_matches_in_db`: the scan of a catalog containing it returns
exactly what the scan of the catalog without it returns, so the table
contributes no entries to the match dictionary, whatever its columns and
rows are. -/
theorem C6_empty_table_skipped (mappings : List (Code × Code))
    (db_keys : List (String × List String)) (t : DBTable)
    (h : t.countResult = .ok 0) (db1 db2 : List DBTable) :
    find_code_matches_in_db mappings (db1 ++ t :: db2) db_keys =
      find_code_matches_in_db mappings (db1 ++ db2) db_keys :=
  find_skip mappings db_keys t (processTable_count_zero mappings db_keys t h) db1 db2

/-- C6 witness: a table reported empty is skipped even though it has a
qualifying candidate column and a (stale) row carrying a mapped old code. -/
theorem C6_empty_table_skipped_witness :
    (DBTable.countResult ⟨"orders", .ok 0, .ok [⟨"ref", "VARCHAR", some 10⟩],
        .ok [[("id", ['5']), ("ref", ['1', '0', '0', '0', '1', 'A'])]]⟩ = .ok 0) ∧
    find_code_matches_in_db [(['1', '0', '0', '0', '1', 'A'], ['9', '1', '0', '0', '0', '1'])]
        [⟨"orders", .ok 0, .ok [⟨"ref", "VARCHAR", some 10⟩],
          .ok [[("id", ['5']), ("ref", ['1', '0', '0', '0', '1', 'A'])]]⟩]
        [("orders", ["id"])] =
      find_code_matches_in_db [(['1', '0', '0', '0', '1', 'A'], ['9', '1', '0', '0', '0', '1'])]
        [] [("orders", ["id"])] :=
  ⟨rfl, C6_empty_table_skipped _ _ _ rfl [] []⟩

/-- C7: a table with qualifying candidate columns but no key columns
configured in `db_keys` contributes zero entries to the output of
`find_code_matches_in_db`, regardless of how many of its cells equal a
mapped old code: the scan is the same as if the table were absent. -/
theorem C7_no_keys_no_entries (mappings : List (Code × Code))
    (db_keys : List (String × List String)) (t : DBTable) (cols : List ColumnInfo)
    (hcols : t.columnsResult = .ok cols)
    (_hcand : candidateColumns cols ≠ [])
    (hkeys : keysFor db_keys t.name = [])
    (db1 db2 : List DBTable) :
    find_code_matches_in_db mappings (db1 ++ t :: db2) db_keys =
      find_code_matches_in_db mappings (db1 ++ db2) db_keys :=
  find_skip mappings db_keys t (processTable_no_keys mappings db_keys t cols hcols hkeys)
    db1 db2

/-- C7 witness: a table whose only candidate column holds a mapped old code
in every row still contributes nothing when no key columns are configured
for it. -/
theorem C7_no_keys_no_entries_witness :
    (DBTable.columnsResult ⟨"orphan", .ok 2, .ok [⟨"ref", "VARCHAR", some 10⟩],
        .ok [[("ref", ['1', '0', '0', '0', '1', 'A'])],
             [("ref", ['1', '0', '0', '0', '1', 'A'])]]⟩ =
      .ok [⟨"ref", "VARCHAR", some 10⟩]) ∧
    find_code_matches_in_db [(['1', '0', '0', '0', '1', 'A'], ['9', '1', '0', '0', '0', '1'])]
        [⟨"orphan", .ok 2, .ok [⟨"ref", "VARCHAR", some 10⟩],
          .ok [[("ref", ['1', '0', '0', '0', '1', 'A'])],
               [("ref", ['1', '0', '0', '0', '1', 'A'])]]⟩]
        [("orders", ["id"])] =
      find_code_matches_in_db [(['1', '0', '0', '0', '1', 'A'], ['9', '1', '0', '0', '0', '1'])]
        [] [("orders", ["id"])] :=
  ⟨rfl, C7_no_keys_no_entries
    [(['1', '0', '0', '0', '1', 'A'], ['9', '1', '0', '0', '0', '1'])]
    [("orders", ["id"])]
    ⟨"orphan", .ok 2, .ok [⟨"ref", "VARCHAR", some 10⟩],
      .ok [[("ref", ['1', '0', '0', '0', '1', 'A'])],
           [("ref", ['1', '0', '0', '0', '1', 'A'])]]⟩
    [⟨"ref", "VARCHAR", some 10⟩] rfl (by decide) (by decide) [] []⟩

/-- When a non-empty table's column metadata is unreadable the exception
escapes `find_code_matches_in_db` (there is no handler around
`inspector.get_columns`), wherever the table sits in the catalog. -/
theorem find_error_of_columns (mappings : List (Code × Code))
    (db_keys : List (String × List String)) (t : DBTable) (db1 db2 : List DBTable)
    (n : Nat) (e : String) (hcnt : t.countResult = .ok n) (hn : n ≠ 0)
    (hcols : t.columnsResult = .error e) :
    ∃ msg, find_code_matches_in_db mappings (db1 ++ t :: db2) db_keys =
      Except.error msg := by
  induction db1 with
  | nil =>
    refine ⟨e, ?_⟩
    have hpt : processTable mappings db_keys t = .error e := by
      unfold processTable
      rw [hcnt, hcols]
      simp [hn]
    simp only [List.nil_append, find_code_matches_in_db, hpt]
  | cons s rest ih =>
    obtain ⟨msg, hmsg⟩ := ih
    simp only [List.cons_append, find_code_matches_in_db, List.append_eq, hmsg]
    cases processTable mappings db_keys s with
    | error e2 => exact ⟨e2, rfl⟩
    | ok entries => exact ⟨msg, rfl⟩

/-- C8 (amended): a failure while counting a single table's rows is
non-fatal to the scan — the table is skipped and the remaining tables are
processed as if it were absent — but a failure while reading a single
non-empty table's column metadata is fatal: the exception propagates and
aborts the whole scan instead of skipping that table. -/
theorem C8_count_nonfatal_columns_fatal (mappings : List (Code × Code))
    (db_keys : List (String × List String)) (t : DBTable) (db1 db2 : List DBTable) :
    (∀ e, t.countResult = .error e →
      find_code_matches_in_db mappings (db1 ++ t :: db2) db_keys =
        find_code_matches_in_db mappings (db1 ++ db2) db_keys) ∧
    (∀ n e, t.countResult = .ok n → n ≠ 0 → t.columnsResult = .error e →
      ∃ msg, find_code_matches_in_db mappings (db1 ++ t :: db2) db_keys =
        Except.error msg) := by
  constructor
  · intro e he
    exact find_skip mappings db_keys t (processTable_count_error mappings db_keys t e he)
      db1 db2
  · intro n e hcnt hn hcols
    exact find_error_of_columns mappings db_keys t db1 db2 n e hcnt hn hcols

/-- C8 witness: both halves of the amended claim at concrete catalogs — a
count failure is skipped, a metadata failure aborts. -/
theorem C8_count_nonfatal_columns_fatal_witness :
    (find_code_matches_in_db [] [⟨"t1", .error "count boom", .ok [], .ok []⟩] [] =
      find_code_matches_in_db [] [] []) ∧
    ∃ msg, find_code_matches_in_db []
        [⟨"t2", .ok 1, .error "metadata boom", .ok []⟩] [] = Except.error msg :=
  ⟨(C8_count_nonfatal_columns_fatal [] [] ⟨"t1", .error "count boom", .ok [], .ok []⟩
      [] []).1 "count boom" rfl,
   (C8_count_nonfatal_columns_fatal [] [] ⟨"t2", .ok 1, .error "metadata boom", .ok []⟩
      [] []).2 1 "metadata boom" rfl (by decide) rfl⟩

/-- C8 counterexample: the claim says a column-metadata failure is non-fatal
(skip and continue), but on a catalog whose first table has unreadable
metadata the whole scan returns that error — the second table, which would
contribute a match, is never reached — whereas without the bad table the
scan succeeds and returns the match. -/
theorem C8_counterexample :
    find_code_matches_in_db [(['1', '0', '0', '0', '1', 'A'], ['9', '1', '0', '0', '0', '1'])]
        [⟨"bad", .ok 1, .error "metadata unreadable", .ok []⟩,
         ⟨"orders", .ok 1, .ok [⟨"id", "VARCHAR", some 10⟩, ⟨"ref", "VARCHAR", some 10⟩],
           .ok [[("id", ['5', '0', '0']), ("ref", ['1', '0', '0', '0', '1', 'A'])]]⟩]
        [("orders", ["id"]), ("bad", ["id"])] = Except.error "metadata unreadable" ∧
    find_code_matches_in_db [(['1', '0', '0', '0', '1', 'A'], ['9', '1', '0', '0', '0', '1'])]
        [⟨"orders", .ok 1, .ok [⟨"id", "VARCHAR", some 10⟩, ⟨"ref", "VARCHAR", some 10⟩],
           .ok [[("id", ['5', '0', '0']), ("ref", ['1', '0', '0', '0', '1', 'A'])]]⟩]
        [("orders", ["id"]), ("bad", ["id"])] =
      Except.ok [("orders",
        [{ row := [("id", ['5', '0', '0']), ("ref", ['1', '0', '0', '0', '1', 'A'])],
           found_value := ['1', '0', '0', '0', '1', 'A'], found_field := "ref",
           new_value := ['9', '1', '0', '0', '0', '1'] }])] :=
  ⟨rfl, rfl⟩

/-- C5 witness: the exact-match theorem applied to the concrete scan of an
`orders` table whose `ref` cell equals the mapped old code, with every
hypothesis discharged on the computed output. -/
theorem C5_exact_match_only_witness :
    rowGet [("id", ['5', '0', '0']), ("ref", ['1', '0', '0', '0', '1', 'A'])] "ref" =
      some ['1', '0', '0', '0', '1', 'A'] ∧
    (['1', '0', '0', '0', '1', 'A'] : Code) ∈
      List.map Prod.fst [(['1', '0', '0', '0', '1', 'A'], ['9', '1', '0', '0', '0', '1'])] ∧
    ∀ v pre post : Code, v = pre ++ ['1', '0', '0', '0', '1', 'A'] ++ post →
      (pre ≠ [] ∨ post ≠ []) →
      rowGet [("id", ['5', '0', '0']), ("ref", ['1', '0', '0', '0', '1', 'A'])] "ref" ≠
        some v := by
  have h := C5_exact_match_only
    [(['1', '0', '0', '0', '1', 'A'], ['9', '1', '0', '0', '0', '1'])]
    [⟨"orders", .ok 1, .ok [⟨"id", "VARCHAR", some 10⟩, ⟨"ref", "VARCHAR", some 10⟩],
      .ok [[("id", ['5', '0', '0']), ("ref", ['1', '0', '0', '0', '1', 'A'])]]⟩]
    [("orders", ["id"]), ("bad", ["id"])]
    [("orders",
      [{ row := [("id", ['5', '0', '0']), ("ref", ['1', '0', '0', '0', '1', 'A'])],
         found_value := ['1', '0', '0', '0', '1', 'A'], found_field := "ref",
         new_value := ['9', '1', '0', '0', '0', '1'] }])]
    rfl "orders"
    [{ row := [("id", ['5', '0', '0']), ("ref", ['1', '0', '0', '0', '1', 'A'])],
       found_value := ['1', '0', '0', '0', '1', 'A'], found_field := "ref",
       new_value := ['9', '1', '0', '0', '0', '1'] }]
    (by decide)
    { row := [("id", ['5', '0', '0']), ("ref", ['1', '0', '0', '0', '1', 'A'])],
      found_value := ['1', '0', '0', '0', '1', 'A'], found_field := "ref",
      new_value := ['9', '1', '0', '0', '0', '1'] }
    (by decide)
  exact h

/-! ## Transactional Updater: `update_old_codes_in_db` (processtable.py:469-544)

The database state is the list of tables with their rows.  One SQL
`UPDATE {table} SET {found_field} = :new_value WHERE {found_field} =
:found_value AND {key_col} = :{key_col} AND ...` statement is given its
relational semantics below; whether the engine instead raises on a given
statement is injected through the oracle `fails`, indexed by the position of
the statement in execution order.

Control flow of the source: the statements run inside `with engine.begin()`.
A failing `connection.execute` raises; the inner handler
(processtable.py:536-538) prints and re-raises, which aborts both loops; the
*outer* handler (processtable.py:540-542) catches the exception and only
prints it, so the exception never reaches the context manager: `__exit__`
sees a clean block and **commits** the statements executed so far, and the
function returns the counts accumulated up to the failure.  (The comments at
processtable.py:538 and :542 state that the transaction is to be rolled
back, which this swallowed exception prevents.) -/

/-- The database state seen by the updater: table name to rows. -/
abbrev UpdState := List (String × List Row)

/-- Semantics of `SET f = v` applied to one row. -/
def setField (r : Row) (f : String) (v : Code) : Row :=
  r.map (fun p => if p.1 == f then (p.1, v) else p)

/-- One `key_col = :key_col` conjunct of the WHERE clause; a `None`/NaN
parameter (`k = NULL`) matches no row. -/
def keyMatch (r : Row) (k : String) (v : Option Code) : Bool :=
  match v with
  | none => false
  | some c => rowGet r k == some c

/-- The full WHERE clause of one update statement
(processtable.py:518-522). -/
def rowWhere (r : Row) (f : String) (old : Code) (kvs : List (String × Option Code)) : Bool :=
  (rowGet r f == some old) && kvs.all (fun kv => keyMatch r kv.1 kv.2)

/-- One UPDATE statement applied to the rows of its table, returning the new
rows and the affected-row count (`result.rowcount`). -/
def updRows (rows : List Row) (f : String) (old new : Code)
    (kvs : List (String × Option Code)) : List Row × Nat :=
  rows.foldr (fun r acc =>
    if rowWhere r f old kvs then (setField r f new :: acc.1, acc.2 + 1)
    else (r :: acc.1, acc.2)) ([], 0)

/-- One UPDATE statement applied to the database state. -/
def applyUpdateStmt (db : UpdState) (table f : String) (old new : Code)
    (kvs : List (String × Option Code)) : UpdState × Nat :=
  db.foldr (fun t acc =>
    if t.1 == table then
      ((t.1, (updRows t.2 f old new kvs).1) :: acc.1, acc.2 + (updRows t.2 f old new kvs).2)
    else (t :: acc.1, acc.2)) ([], 0)

/-- The inner row loop of `update_old_codes_in_db` (processtable.py:503-538)
for one table: returns the count accumulated for the table, the transaction
workspace, the next statement index, and whether the loop finished without
an exception (`false` = a statement raised and the re-raised exception is
propagating). -/
def updateRows (fails : Nat → Bool) (table : String) (key_columns : List String) :
    List MatchRec → UpdState → Nat → Nat → (Nat × UpdState × Nat × Bool)
  | [], db, n, cnt => (cnt, db, n, true)
  | rec :: rest, db, n, cnt =>
    if fails n then (cnt, db, n + 1, false)
    else
      updateRows fails table key_columns rest
        (applyUpdateStmt db table rec.found_field rec.found_value rec.new_value
          (key_columns.map (fun k => (k, rowGet rec.row k)))).1
        (n + 1)
        (cnt + (applyUpdateStmt db table rec.found_field rec.found_value rec.new_value
          (key_columns.map (fun k => (k, rowGet rec.row k)))).2)

/-- The outer table loop of `update_old_codes_in_db`
(processtable.py:495-538): `update_counts[table_name] = 0` on entering each
table, the count entries accumulate in insertion order, and an exception
aborts the remaining tables. -/
def updateTables (fails : Nat → Bool) (db_keys : List (String × List String)) :
    List (String × List MatchRec) → UpdState → Nat → (List (String × Nat) × UpdState)
  | [], db, _ => ([], db)
  | (tname, ms) :: rest, db, n =>
    match updateRows fails tname (keysFor db_keys tname) ms db n 0 with
    | (cnt, db2, n2, true) =>
      ((tname, cnt) :: (updateTables fails db_keys rest db2 n2).1,
        (updateTables fails db_keys rest db2 n2).2)
    | (cnt, db2, _, false) => ([(tname, cnt)], db2)

/-- Embedding of `update_old_codes_in_db` (processtable.py:469-544): run the table loop
inside the transaction scope; because the outer handler swallows any
exception before `engine.begin().__exit__` can see it, the context manager
always commits the workspace, and the accumulated counts are always
returned — there is no error outcome. -/
def update_old_codes_in_db (fails : Nat → Bool) (matches_dict : List (String × List MatchRec))
    (db_keys : List (String × List String)) (db : UpdState) :
    List (String × Nat) × UpdState :=
  updateTables fails db_keys matches_dict db 0

/-- C1 (code bug): with two pending updates on `orders` and the second
statement failing, `update_old_codes_in_db` returns normally (the exception
is swallowed by the handler at processtable.py:540-542 before the context
manager can see it) and the committed database state contains the first
update — it differs from the state before the transaction, contradicting
the claimed rollback-and-propagate behaviour and the source's own comments
at processtable.py:538 and :542. -/
theorem C1_partial_commit_not_rolled_back :
    update_old_codes_in_db (fun n => n == 1)
      [("orders",
        [{ row := [("id", ['1']), ("ref", ['1', '0', '0', '0', '1', 'A'])],
           found_value := ['1', '0', '0', '0', '1', 'A'], found_field := "ref",
           new_value := ['9', '1', '0', '0', '0', '1'] },
         { row := [("id", ['2']), ("ref", ['1', '0', '0', '0', '1', 'A'])],
           found_value := ['1', '0', '0', '0', '1', 'A'], found_field := "ref",
           new_value := ['9', '1', '0', '0', '0', '1'] }])]
      [("orders", ["id"])]
      [("orders",
        [[("id", ['1']), ("ref", ['1', '0', '0', '0', '1', 'A'])],
         [("id", ['2']), ("ref", ['1', '0', '0', '0', '1', 'A'])]])] =
      ([("orders", 1)],
       [("orders",
         [[("id", ['1']), ("ref", ['9', '1', '0', '0', '0', '1'])],
          [("id", ['2']), ("ref", ['1', '0', '0', '0', '1', 'A'])]])]) ∧
    ([("orders",
       [[("id", ['1']), ("ref", ['9', '1', '0', '0', '0', '1'])],
        [("id", ['2']), ("ref", ['1', '0', '0', '0', '1', 'A'])]])] : UpdState) ≠
      [("orders",
        [[("id", ['1']), ("ref", ['1', '0', '0', '0', '1', 'A'])],
         [("id", ['2']), ("ref", ['1', '0', '0', '0', '1', 'A'])]])] :=
  ⟨rfl, by decide⟩

/-- C2 (code bug): with table `a` fully updated and the second of table
`b`'s two statements failing, `update_old_codes_in_db` still returns the
counts accumulated before the failure (`{a: 1, b: 1}`) — the counts of a
failed transaction are neither discarded nor withheld from the caller,
contradicting the claim that counts are populated only on a transaction
that completes without error. -/
theorem C2_stale_counts_returned :
    (update_old_codes_in_db (fun n => n == 2)
      [("a",
        [{ row := [("k", ['1']), ("c", ['2', '2', '2', '2', '2', 'A'])],
           found_value := ['2', '2', '2', '2', '2', 'A'], found_field := "c",
           new_value := ['9', '2', '2', '2', '2', '2'] }]),
       ("b",
        [{ row := [("k", ['1']), ("d", ['2', '2', '2', '2', '2', 'A'])],
           found_value := ['2', '2', '2', '2', '2', 'A'], found_field := "d",
           new_value := ['9', '2', '2', '2', '2', '2'] },
         { row := [("k", ['2']), ("d", ['2', '2', '2', '2', '2', 'A'])],
           found_value := ['2', '2', '2', '2', '2', 'A'], found_field := "d",
           new_value := ['9', '2', '2', '2', '2', '2'] }])]
      [("a", ["k"]), ("b", ["k"])]
      [("a", [[("k", ['1']), ("c", ['2', '2', '2', '2', '2', 'A'])]]),
       ("b", [[("k", ['1']), ("d", ['2', '2', '2', '2', '2', 'A'])],
              [("k", ['2']), ("d", ['2', '2', '2', '2', '2', 'A'])]])]).1 =
      [("a", 1), ("b", 1)] ∧
    [("a", 1), ("b", 1)] ≠ ([] : List (String × Nat)) :=
  ⟨rfl, by decide⟩

end DBAccess
